import Mathlib

/-!
# k8srun: template resolution and execution lifecycle (`cluster.go`)

A shallow embedding of `cluster.go`: the helpers `prefix` and `normalize`, the
template lookup `getPodTemplate`, the launcher `Start` and the composed entry
point `Run`, together with the library calls they make (Go `strings`,
`unicode`, `regexp`, and the apimachinery `labels` package).

Go strings are modelled as lists of Unicode code points (valid UTF-8). A call
yields the list of the platform calls it made, in order, and an outcome that is a
returned value or a run-time panic. The answers of the platform and the methods of
`Execution` whose bodies are outside `cluster.go` are parameters.
-/

namespace K8sRun

/-- Go `string`, as its sequence of runes. -/
abbrev GoString := List Char

/-! ## `unicode` -/

/-- One entry of the lower-case mapping table: `shift lo hi tgt` sends the code
points `lo..hi` to `tgt..`, `alt lo hi` is an upper/lower alternating run in which
the code points at an even offset from `lo` are upper-case and map to their
successor. -/
inductive CaseRange where
  | shift (lo hi tgt : Nat)
  | alt (lo hi : Nat)
  deriving DecidableEq, Repr

/-- First code point of a range. -/
def CaseRange.lo : CaseRange → Nat
  | .shift lo _ _ => lo
  | .alt lo _ => lo

/-- Last code point of a range. -/
def CaseRange.hi : CaseRange → Nat
  | .shift _ hi _ => hi
  | .alt _ hi => hi

/-- Membership of a code point in a range. -/
def CaseRange.contains (r : CaseRange) (n : Nat) : Bool :=
  decide (r.lo ≤ n) && decide (n ≤ r.hi)

/-- Lower-case image of a code point lying in the range. -/
def CaseRange.apply : CaseRange → Nat → Nat
  | .shift lo _ tgt, n => tgt + (n - lo)
  | .alt lo _, n => if (n - lo) % 2 = 0 then n + 1 else n

/-- The simple lower-case mapping of the non-ASCII code points (Unicode 14.0
`UnicodeData.txt`, the data behind Go's `unicode.CaseRanges`), as ranges in
increasing order. -/
def caseRanges : List CaseRange := [
  CaseRange.shift 0x00C0 0x00D6 0x00E0, CaseRange.shift 0x00D8 0x00DE 0x00F8,
  CaseRange.alt 0x0100 0x012E, CaseRange.shift 0x0130 0x0130 0x0069, CaseRange.alt 0x0132 0x0136,
  CaseRange.alt 0x0139 0x0147, CaseRange.alt 0x014A 0x0176, CaseRange.shift 0x0178 0x0178 0x00FF,
  CaseRange.alt 0x0179 0x017D, CaseRange.shift 0x0181 0x0181 0x0253, CaseRange.alt 0x0182 0x0184,
  CaseRange.shift 0x0186 0x0186 0x0254, CaseRange.shift 0x0187 0x0187 0x0188,
  CaseRange.shift 0x0189 0x018A 0x0256, CaseRange.shift 0x018B 0x018B 0x018C,
  CaseRange.shift 0x018E 0x018E 0x01DD, CaseRange.shift 0x018F 0x018F 0x0259,
  CaseRange.shift 0x0190 0x0190 0x025B, CaseRange.shift 0x0191 0x0191 0x0192,
  CaseRange.shift 0x0193 0x0193 0x0260, CaseRange.shift 0x0194 0x0194 0x0263,
  CaseRange.shift 0x0196 0x0196 0x0269, CaseRange.shift 0x0197 0x0197 0x0268,
  CaseRange.shift 0x0198 0x0198 0x0199, CaseRange.shift 0x019C 0x019C 0x026F,
  CaseRange.shift 0x019D 0x019D 0x0272, CaseRange.shift 0x019F 0x019F 0x0275,
  CaseRange.alt 0x01A0 0x01A4, CaseRange.shift 0x01A6 0x01A6 0x0280,
  CaseRange.shift 0x01A7 0x01A7 0x01A8, CaseRange.shift 0x01A9 0x01A9 0x0283,
  CaseRange.shift 0x01AC 0x01AC 0x01AD, CaseRange.shift 0x01AE 0x01AE 0x0288,
  CaseRange.shift 0x01AF 0x01AF 0x01B0, CaseRange.shift 0x01B1 0x01B2 0x028A,
  CaseRange.alt 0x01B3 0x01B5, CaseRange.shift 0x01B7 0x01B7 0x0292,
  CaseRange.shift 0x01B8 0x01B8 0x01B9, CaseRange.shift 0x01BC 0x01BC 0x01BD,
  CaseRange.shift 0x01C4 0x01C4 0x01C6, CaseRange.shift 0x01C5 0x01C5 0x01C6,
  CaseRange.shift 0x01C7 0x01C7 0x01C9, CaseRange.shift 0x01C8 0x01C8 0x01C9,
  CaseRange.shift 0x01CA 0x01CA 0x01CC, CaseRange.alt 0x01CB 0x01DB, CaseRange.alt 0x01DE 0x01EE,
  CaseRange.shift 0x01F1 0x01F1 0x01F3, CaseRange.alt 0x01F2 0x01F4,
  CaseRange.shift 0x01F6 0x01F6 0x0195, CaseRange.shift 0x01F7 0x01F7 0x01BF,
  CaseRange.alt 0x01F8 0x021E, CaseRange.shift 0x0220 0x0220 0x019E, CaseRange.alt 0x0222 0x0232,
  CaseRange.shift 0x023A 0x023A 0x2C65, CaseRange.shift 0x023B 0x023B 0x023C,
  CaseRange.shift 0x023D 0x023D 0x019A, CaseRange.shift 0x023E 0x023E 0x2C66,
  CaseRange.shift 0x0241 0x0241 0x0242, CaseRange.shift 0x0243 0x0243 0x0180,
  CaseRange.shift 0x0244 0x0244 0x0289, CaseRange.shift 0x0245 0x0245 0x028C,
  CaseRange.alt 0x0246 0x024E, CaseRange.alt 0x0370 0x0372, CaseRange.shift 0x0376 0x0376 0x0377,
  CaseRange.shift 0x037F 0x037F 0x03F3, CaseRange.shift 0x0386 0x0386 0x03AC,
  CaseRange.shift 0x0388 0x038A 0x03AD, CaseRange.shift 0x038C 0x038C 0x03CC,
  CaseRange.shift 0x038E 0x038F 0x03CD, CaseRange.shift 0x0391 0x03A1 0x03B1,
  CaseRange.shift 0x03A3 0x03AB 0x03C3, CaseRange.shift 0x03CF 0x03CF 0x03D7,
  CaseRange.alt 0x03D8 0x03EE, CaseRange.shift 0x03F4 0x03F4 0x03B8,
  CaseRange.shift 0x03F7 0x03F7 0x03F8, CaseRange.shift 0x03F9 0x03F9 0x03F2,
  CaseRange.shift 0x03FA 0x03FA 0x03FB, CaseRange.shift 0x03FD 0x03FF 0x037B,
  CaseRange.shift 0x0400 0x040F 0x0450, CaseRange.shift 0x0410 0x042F 0x0430,
  CaseRange.alt 0x0460 0x0480, CaseRange.alt 0x048A 0x04BE, CaseRange.shift 0x04C0 0x04C0 0x04CF,
  CaseRange.alt 0x04C1 0x04CD, CaseRange.alt 0x04D0 0x052E, CaseRange.shift 0x0531 0x0556 0x0561,
  CaseRange.shift 0x10A0 0x10C5 0x2D00, CaseRange.shift 0x10C7 0x10C7 0x2D27,
  CaseRange.shift 0x10CD 0x10CD 0x2D2D, CaseRange.shift 0x13A0 0x13EF 0xAB70,
  CaseRange.shift 0x13F0 0x13F5 0x13F8, CaseRange.shift 0x1C90 0x1CBA 0x10D0,
  CaseRange.shift 0x1CBD 0x1CBF 0x10FD, CaseRange.alt 0x1E00 0x1E94,
  CaseRange.shift 0x1E9E 0x1E9E 0x00DF, CaseRange.alt 0x1EA0 0x1EFE,
  CaseRange.shift 0x1F08 0x1F0F 0x1F00, CaseRange.shift 0x1F18 0x1F1D 0x1F10,
  CaseRange.shift 0x1F28 0x1F2F 0x1F20, CaseRange.shift 0x1F38 0x1F3F 0x1F30,
  CaseRange.shift 0x1F48 0x1F4D 0x1F40, CaseRange.shift 0x1F59 0x1F59 0x1F51,
  CaseRange.shift 0x1F5B 0x1F5B 0x1F53, CaseRange.shift 0x1F5D 0x1F5D 0x1F55,
  CaseRange.shift 0x1F5F 0x1F5F 0x1F57, CaseRange.shift 0x1F68 0x1F6F 0x1F60,
  CaseRange.shift 0x1F88 0x1F8F 0x1F80, CaseRange.shift 0x1F98 0x1F9F 0x1F90,
  CaseRange.shift 0x1FA8 0x1FAF 0x1FA0, CaseRange.shift 0x1FB8 0x1FB9 0x1FB0,
  CaseRange.shift 0x1FBA 0x1FBB 0x1F70, CaseRange.shift 0x1FBC 0x1FBC 0x1FB3,
  CaseRange.shift 0x1FC8 0x1FCB 0x1F72, CaseRange.shift 0x1FCC 0x1FCC 0x1FC3,
  CaseRange.shift 0x1FD8 0x1FD9 0x1FD0, CaseRange.shift 0x1FDA 0x1FDB 0x1F76,
  CaseRange.shift 0x1FE8 0x1FE9 0x1FE0, CaseRange.shift 0x1FEA 0x1FEB 0x1F7A,
  CaseRange.shift 0x1FEC 0x1FEC 0x1FE5, CaseRange.shift 0x1FF8 0x1FF9 0x1F78,
  CaseRange.shift 0x1FFA 0x1FFB 0x1F7C, CaseRange.shift 0x1FFC 0x1FFC 0x1FF3,
  CaseRange.shift 0x2126 0x2126 0x03C9, CaseRange.shift 0x212A 0x212A 0x006B,
  CaseRange.shift 0x212B 0x212B 0x00E5, CaseRange.shift 0x2132 0x2132 0x214E,
  CaseRange.shift 0x2160 0x216F 0x2170, CaseRange.shift 0x2183 0x2183 0x2184,
  CaseRange.shift 0x24B6 0x24CF 0x24D0, CaseRange.shift 0x2C00 0x2C2F 0x2C30,
  CaseRange.shift 0x2C60 0x2C60 0x2C61, CaseRange.shift 0x2C62 0x2C62 0x026B,
  CaseRange.shift 0x2C63 0x2C63 0x1D7D, CaseRange.shift 0x2C64 0x2C64 0x027D,
  CaseRange.alt 0x2C67 0x2C6B, CaseRange.shift 0x2C6D 0x2C6D 0x0251,
  CaseRange.shift 0x2C6E 0x2C6E 0x0271, CaseRange.shift 0x2C6F 0x2C6F 0x0250,
  CaseRange.shift 0x2C70 0x2C70 0x0252, CaseRange.shift 0x2C72 0x2C72 0x2C73,
  CaseRange.shift 0x2C75 0x2C75 0x2C76, CaseRange.shift 0x2C7E 0x2C7F 0x023F,
  CaseRange.alt 0x2C80 0x2CE2, CaseRange.alt 0x2CEB 0x2CED, CaseRange.shift 0x2CF2 0x2CF2 0x2CF3,
  CaseRange.alt 0xA640 0xA66C, CaseRange.alt 0xA680 0xA69A, CaseRange.alt 0xA722 0xA72E,
  CaseRange.alt 0xA732 0xA76E, CaseRange.alt 0xA779 0xA77B, CaseRange.shift 0xA77D 0xA77D 0x1D79,
  CaseRange.alt 0xA77E 0xA786, CaseRange.shift 0xA78B 0xA78B 0xA78C,
  CaseRange.shift 0xA78D 0xA78D 0x0265, CaseRange.alt 0xA790 0xA792, CaseRange.alt 0xA796 0xA7A8,
  CaseRange.shift 0xA7AA 0xA7AA 0x0266, CaseRange.shift 0xA7AB 0xA7AB 0x025C,
  CaseRange.shift 0xA7AC 0xA7AC 0x0261, CaseRange.shift 0xA7AD 0xA7AD 0x026C,
  CaseRange.shift 0xA7AE 0xA7AE 0x026A, CaseRange.shift 0xA7B0 0xA7B0 0x029E,
  CaseRange.shift 0xA7B1 0xA7B1 0x0287, CaseRange.shift 0xA7B2 0xA7B2 0x029D,
  CaseRange.shift 0xA7B3 0xA7B3 0xAB53, CaseRange.alt 0xA7B4 0xA7C2,
  CaseRange.shift 0xA7C4 0xA7C4 0xA794, CaseRange.shift 0xA7C5 0xA7C5 0x0282,
  CaseRange.shift 0xA7C6 0xA7C6 0x1D8E, CaseRange.alt 0xA7C7 0xA7C9,
  CaseRange.shift 0xA7D0 0xA7D0 0xA7D1, CaseRange.alt 0xA7D6 0xA7D8,
  CaseRange.shift 0xA7F5 0xA7F5 0xA7F6, CaseRange.shift 0xFF21 0xFF3A 0xFF41,
  CaseRange.shift 0x10400 0x10427 0x10428, CaseRange.shift 0x104B0 0x104D3 0x104D8,
  CaseRange.shift 0x10570 0x1057A 0x10597, CaseRange.shift 0x1057C 0x1058A 0x105A3,
  CaseRange.shift 0x1058C 0x10592 0x105B3, CaseRange.shift 0x10594 0x10595 0x105BB,
  CaseRange.shift 0x10C80 0x10CB2 0x10CC0, CaseRange.shift 0x118A0 0x118BF 0x118C0,
  CaseRange.shift 0x16E40 0x16E5F 0x16E60, CaseRange.shift 0x1E900 0x1E921 0x1E922
]

/-- Code-point level `unicode.ToLower`: ASCII letters arithmetically, every other
code point through the case table. -/
def toLowerNat (n : Nat) : Nat :=
  if n < 0x80 then
    if 0x41 ≤ n ∧ n ≤ 0x5A then n + 0x20 else n
  else
    match caseRanges.find? (fun r => r.contains n) with
    | some r => r.apply n
    | none => n

/-- Go `unicode.ToLower`. -/
def unicode.ToLower (c : Char) : Char := Char.ofNat (toLowerNat c.toNat)

/-- Code-point level `unicode.IsSpace`: the Latin-1 white space and the
`White_Space` property above Latin-1. -/
def isSpaceNat (n : Nat) : Bool :=
  if n ≤ 0xFF then
    n = 0x09 ∨ n = 0x0A ∨ n = 0x0B ∨ n = 0x0C ∨ n = 0x0D ∨ n = 0x20 ∨ n = 0x85 ∨ n = 0xA0
  else
    n = 0x1680 ∨ (0x2000 ≤ n ∧ n ≤ 0x200A) ∨ n = 0x2028 ∨ n = 0x2029 ∨ n = 0x202F
      ∨ n = 0x205F ∨ n = 0x3000

/-- Go `unicode.IsSpace`. -/
def unicode.IsSpace (c : Char) : Bool := isSpaceNat c.toNat

/-- Whether a relation between a code point and its lower-case image holds for every
code point covered by the case table. -/
def caseTableAll (Q : Nat → Nat → Bool) : Bool :=
  caseRanges.all (fun r => (List.range' r.lo (r.hi + 1 - r.lo)).all (fun n => Q n (r.apply n)))

/-! ## `strings` and `regexp` -/

/-- Go `strings.ToLower`: every rune mapped by `unicode.ToLower`. -/
def strings.ToLower (s : GoString) : GoString := s.map unicode.ToLower

/-- Go `strings.TrimSpace`: leading and trailing white space removed. -/
def strings.TrimSpace (s : GoString) : GoString :=
  (s.dropWhile unicode.IsSpace).rdropWhile unicode.IsSpace

/-- Go `strings.ReplaceAll` for a one-rune pattern and a one-rune replacement, the
form used by `normalize`. -/
def strings.ReplaceAll (s : GoString) (old new : Char) : GoString :=
  s.map (fun c => if c = old then new else c)

/-- Code points of the POSIX class `[[:alnum:]]` of Go's `regexp`: ASCII digits and
letters. -/
def isAlnumNat (n : Nat) : Bool :=
  (0x30 ≤ n ∧ n ≤ 0x39) ∨ (0x41 ≤ n ∧ n ≤ 0x5A) ∨ (0x61 ≤ n ∧ n ≤ 0x7A)

/-- The class `[[:alnum:]]` on runes. -/
def isAlnum (c : Char) : Bool := isAlnumNat c.toNat

/-- The call `regexp.MustCompile("^[[:alnum:]]+").FindString`: the longest run of
`[[:alnum:]]` runes at the start of the text, empty when there is none. -/
def findAlnumRun (name : GoString) : GoString := name.takeWhile isAlnum

/-! ## `cluster.go`: helpers -/

/-- Source function `prefix` (cluster.go:151): the leading alphanumeric run of the name,
lower-cased afterwards. -/
def namePrefix (name : GoString) : GoString :=
  strings.ToLower (findAlnumRun name)

/-- Source function `normalize` (cluster.go:157). -/
def normalize (s : GoString) : GoString :=
  strings.ReplaceAll (strings.TrimSpace (strings.ToLower s)) '_' '-'

/-! ## Kubernetes objects (`k8s.io/api/core/v1`, `apimachinery/pkg/apis/meta/v1`) -/

/-- Go `error`, carried as its message. -/
abbrev Error := String

/-- The part of `meta.ObjectMeta` carried from a template to a pod. -/
structure ObjectMeta where
  Name : GoString
  GenerateName : GoString
  Namespace : GoString
  Labels : List (GoString × GoString)
  deriving DecidableEq, Repr

/-- The part of `core.Container` the launcher touches or copies. -/
structure Container where
  Name : GoString
  Image : GoString
  Command : List GoString
  Args : List GoString
  deriving DecidableEq, Repr

/-- The part of `core.PodSpec` the launcher touches or copies. -/
structure PodSpec where
  Containers : List Container
  RestartPolicy : GoString
  deriving DecidableEq, Repr

/-- Kubernetes `core.PodTemplateSpec`. -/
structure PodTemplateSpec where
  ObjectMeta : ObjectMeta
  Spec : PodSpec
  deriving DecidableEq, Repr

/-- Kubernetes `core.PodTemplate`; `ObjectMeta` is the embedded metadata, so the Go
selector `template.Namespace` is `ObjectMeta.Namespace`. -/
structure PodTemplate where
  ObjectMeta : ObjectMeta
  Template : PodTemplateSpec
  deriving DecidableEq, Repr

/-- Go selector `template.Namespace` through the embedded `ObjectMeta`. -/
def PodTemplate.Namespace (t : PodTemplate) : GoString := t.ObjectMeta.Namespace

/-- Kubernetes `core.Pod`. -/
structure Pod where
  ObjectMeta : ObjectMeta
  Spec : PodSpec
  deriving DecidableEq, Repr

/-! ## `k8s.io/apimachinery/pkg/labels` -/

/-- The selection operator used by the source, `selection.Equals`. -/
inductive Operator where
  | Equals
  deriving DecidableEq, Repr

/-- A `labels.Requirement`. -/
structure Requirement where
  key : GoString
  operator : Operator
  strValues : List GoString
  deriving DecidableEq, Repr

/-- Characters admitted inside a label value, `[-A-Za-z0-9_.]`. -/
def isLabelValueChar (c : Char) : Bool :=
  isAlnum c || c = '-' || c = '_' || c = '.'

/-- The check `validation.IsValidLabelValue`: at most 63 bytes and a match of
`(([A-Za-z0-9][-A-Za-z0-9_.]*)?[A-Za-z0-9])?`. A matching value is ASCII, so its
byte length is its rune count. -/
def IsValidLabelValue (v : GoString) : Bool :=
  decide (v.length ≤ 63) &&
    (v.isEmpty ||
      ((v.head?.map isAlnum).getD false && (v.getLast?.map isAlnum).getD false
        && v.all isLabelValueChar))

/-- What `labels.NewRequirement` hands back next to a non-nil error. The releases of
apimachinery differ: the earlier ones return a nil pointer, the later ones return
the unvalidated requirement. -/
inductive OnInvalid where
  | nilPointer
  | requirement
  deriving DecidableEq, Repr

/-- The call `labels.NewRequirement(key, selection.Equals, vals)`: the returned pointer
(`none` is nil) and the returned error. An `Equals` requirement needs exactly one
value and every value must be a valid label value. The three keys of the source are
fixed valid qualified names, so key validation is left out. -/
def NewRequirement (lib : OnInvalid) (key : GoString) (op : Operator)
    (vals : List GoString) : Option Requirement × Option Error :=
  if vals.length = 1 ∧ vals.all IsValidLabelValue then
    (some ⟨key, op, vals⟩, none)
  else
    match lib with
    | .nilPointer => (none, some "invalid label requirement")
    | .requirement => (some ⟨key, op, vals⟩, some "invalid label requirement")

/-- A `labels.Selector` (Go `internalSelector`, a slice of requirements). -/
abbrev Selector := List Requirement

/-- The call `labels.NewSelector()`: the selector without requirements. -/
def NewSelector : Selector := []

/-- The method `Selector.Add`: a NEW selector holding the old and the added
requirements sorted by key. The receiver is a slice value and is left as it was. -/
def Selector.Add (s : Selector) (reqs : List Requirement) : Selector :=
  (s ++ reqs).insertionSort (fun a b => a.key ≤ b.key)

/-- The method `Requirement.String` for an `Equals` requirement: the key, `=`, and
the values joined by commas (one value in every requirement of the source). -/
def Requirement.String (r : Requirement) : GoString :=
  r.key ++ ['='] ++ [','].intercalate r.strValues

/-- The method `Selector.String`: the requirements joined by commas; the empty
selector prints as the empty string, which selects everything. -/
def Selector.String (s : Selector) : GoString :=
  [','].intercalate (s.map Requirement.String)

/-! ## The platform, executions and observable events -/

/-- The two calls that `cluster.go` makes through the client set, as the responses
of the platform: `PodTemplates(ns).List` with a label selector string, and
`Pods(ns).Create`. -/
structure Clientset where
  List : GoString → GoString → Except Error (List PodTemplate)
  Create : GoString → Pod → Except Error Pod

/-- Source struct `Job` (cluster.go:18). -/
structure Job where
  Instance : GoString
  Name : GoString
  Namespace : GoString
  Config : GoString
  Args : List GoString
  deriving DecidableEq, Repr

/-- Source struct `Cluster` (cluster.go:26); `defaultNamespace` is its field
`namespace`. -/
structure Cluster where
  clentset : Clientset
  defaultNamespace : GoString

/-- The struct `Execution` as `Start` fills it: the job, the pods endpoint (known by
its namespace) and the created pod. -/
structure Execution where
  job : Job
  pods : GoString
  pod : Pod
  deriving DecidableEq, Repr

/-- An `io.Writer`, known by a handle. -/
structure Writer where
  fd : Nat
  deriving DecidableEq, Repr

/-- The methods of `Execution` that `Run` calls and whose bodies are outside
`cluster.go`, as their results: the error of `CopyLogs`, the pair of
`WaitForCompletion`, and whether `Delete` failed. -/
structure ExecutionOps where
  CopyLogs : Execution → Writer → Option Error
  WaitForCompletion : Execution → Int × Option Error
  Delete : Execution → Option Error

/-- Calls observable from outside, in the order they are made. -/
inductive Event where
  | list (ns : GoString) (selector : GoString)
  | create (ns : GoString) (pod : Pod)
  | printf (format : String) (args : List GoString)
  | copyLogs (e : Execution) (out : Writer)
  | waitForCompletion (e : Execution)
  | delete (e : Execution)
  deriving DecidableEq, Repr

/-- Run-time panics of the Go code. -/
inductive Panic where
  | nilDereference
  | indexOutOfRange
  deriving DecidableEq, Repr

deriving instance DecidableEq for Except

/-- How a call ends: it returns a value or it panics. -/
inductive Outcome (α : Type) where
  | ret (a : α)
  | panic (p : Panic)
  deriving DecidableEq, Repr

/-- A call together with the events it caused. -/
structure Step (α : Type) where
  trace : List Event
  out : Outcome α
  deriving DecidableEq

/-! ## `cluster.go`: template lookup, launch and run -/

/-- Message of the error returned for an empty listing (cluster.go:141). -/
def errNotFound : Error := "unable to find the pod template"

/-- Message of the error returned for a listing of several items (cluster.go:145). -/
def errAmbiguous : Error := "more than one pod template is defined"

/-- Source method `Cluster.getPodTemplate` (cluster.go:114). The errors of the three
`NewRequirement` calls are dropped and the pointers dereferenced in the call of
`selector.Add`, whose value is dropped as well, so the string sent to `List` is that
of the selector made by `NewSelector`. -/
def getPodTemplate (lib : OnInvalid) (cluster : Cluster) (job : Job) :
    Step (Except Error PodTemplate) :=
  let ns := if job.Namespace = [] then cluster.defaultNamespace else job.Namespace
  let (prefixReq, _) := NewRequirement lib "k8srun.yashkov.org/prefix".toList Operator.Equals
    [namePrefix job.Name]
  let (config, _) := NewRequirement lib "k8srun.yashkov.org/config".toList Operator.Equals
    [job.Config]
  let (inst, _) := NewRequirement lib "k8srun.yashkov.org/instance".toList Operator.Equals
    [strings.ToLower job.Instance]
  let selector := NewSelector
  match prefixReq, config, inst with
  | some p, some c, some i =>
    let _ := selector.Add [p, c, i]
    match cluster.clentset.List ns selector.String with
    | .error err => ⟨[Event.list ns selector.String], .ret (.error err)⟩
    | .ok list =>
      let len := list.length
      if len = 0 then
        ⟨[Event.list ns selector.String], .ret (.error errNotFound)⟩
      else if len > 1 then
        ⟨[Event.list ns selector.String], .ret (.error errAmbiguous)⟩
      else
        match list.head? with
        | some item => ⟨[Event.list ns selector.String], .ret (.ok item)⟩
        | none => ⟨[Event.list ns selector.String], .panic Panic.indexOutOfRange⟩
  | _, _, _ => ⟨[], .panic Panic.nilDereference⟩

/-- Source method `Cluster.Start` (cluster.go:62). Indexing `Containers[0]` of a
template without containers panics. -/
def Start (lib : OnInvalid) (cluster : Cluster) (job : Job) : Step (Except Error Execution) :=
  let r := getPodTemplate lib cluster job
  match r.out with
  | .panic p => ⟨r.trace, .panic p⟩
  | .ret (.error err) => ⟨r.trace, .ret (.error err)⟩
  | .ret (.ok template) =>
    let pods := template.Namespace
    let objectMeta : ObjectMeta :=
      { template.Template.ObjectMeta with
        Namespace := [], Name := [], GenerateName := normalize job.Name ++ ['-'] }
    match template.Template.Spec.Containers with
    | [] => ⟨r.trace, .panic Panic.indexOutOfRange⟩
    | c :: cs =>
      let podDef : Pod :=
        { ObjectMeta := objectMeta,
          Spec := { template.Template.Spec with Containers := { c with Args := job.Args } :: cs } }
      match cluster.clentset.Create pods podDef with
      | .error err => ⟨r.trace ++ [Event.create pods podDef], .ret (.error err)⟩
      | .ok pod =>
        ⟨r.trace ++ [Event.create pods podDef,
            Event.printf "Created pod %q in %q namespace\n"
              [pod.ObjectMeta.Name, pod.ObjectMeta.Namespace]],
          .ret (.ok ⟨job, pods, pod⟩)⟩

/-- Source method `Cluster.Run` (cluster.go:96). The deferred `execution.Delete()` is
registered only after a successful `Start`; it then runs when `Run` returns, on
either return path, and its result is dropped. -/
def Run (lib : OnInvalid) (ops : ExecutionOps) (cluster : Cluster) (job : Job) (out : Writer) :
    Step (Int × Option Error) :=
  let s := Start lib cluster job
  match s.out with
  | .panic p => ⟨s.trace, .panic p⟩
  | .ret (.error err) => ⟨s.trace, .ret (128, some err)⟩
  | .ret (.ok execution) =>
    let body : Step (Int × Option Error) :=
      match ops.CopyLogs execution out with
      | some err => ⟨[Event.copyLogs execution out], .ret (128, some err)⟩
      | none =>
        ⟨[Event.copyLogs execution out, Event.waitForCompletion execution],
          .ret (ops.WaitForCompletion execution)⟩
    let _ := ops.Delete execution
    ⟨s.trace ++ body.trace ++ [Event.delete execution], body.out⟩

/-- The namespace in which `getPodTemplate` looks (cluster.go:115-119): the one of
the job, or the default of the cluster when the job has none. -/
def effectiveNamespace (cluster : Cluster) (job : Job) : GoString :=
  if job.Namespace = [] then cluster.defaultNamespace else job.Namespace

/-- The result of `getPodTemplate` once the listing has answered (cluster.go:134-148). -/
def resolveListing : Except Error (List PodTemplate) → Outcome (Except Error PodTemplate)
  | .error err => .ret (.error err)
  | .ok [] => .ret (.error errNotFound)
  | .ok [item] => .ret (.ok item)
  | .ok (_ :: _ :: _) => .ret (.error errAmbiguous)

/-- Events of the launch phase: the listing, the creation and the message `Start`
prints. -/
def isLaunchEvent : Event → Bool
  | .list _ _ => true
  | .create _ _ => true
  | .printf _ _ => true
  | _ => false

/-- Number of `Delete` requests in a trace. -/
def deleteCount (t : List Event) : Nat :=
  t.countP (fun e => match e with | .delete _ => true | _ => false)

/-- Number of `WaitForCompletion` calls in a trace. -/
def waitCount (t : List Event) : Nat :=
  t.countP (fun e => match e with | .waitForCompletion _ => true | _ => false)

/-- Number of `CopyLogs` calls in a trace. -/
def copyLogsCount (t : List Event) : Nat :=
  t.countP (fun e => match e with | .copyLogs _ _ => true | _ => false)

/-! ## A small platform to run the code on -/

/-- Whether a set of labels satisfies a selector string of comma-separated
`key=value` terms; the empty string has no terms. -/
def matchesSelector (selector : GoString) (labels : List (GoString × GoString)) : Bool :=
  if selector = [] then true
  else (selector.splitOn ',').all (fun term =>
    labels.any (fun kv => kv.1 ++ ['='] ++ kv.2 = term))

/-- A platform holding the given templates: `List` answers with the templates of
the namespace whose labels satisfy the selector, `Create` accepts every pod and
names it by its generate-name followed by `x7k2q`. -/
def fakeClientset (templates : List PodTemplate) : Clientset :=
  { List := fun ns selector =>
      Except.ok (templates.filter (fun t =>
        decide (t.Namespace = ns) && matchesSelector selector t.ObjectMeta.Labels)),
    Create := fun ns pod =>
      let created : ObjectMeta :=
        { pod.ObjectMeta with
          Namespace := ns, Name := pod.ObjectMeta.GenerateName ++ ['x', '7', 'k', '2', 'q'] }
      Except.ok { pod with ObjectMeta := created } }

/-- Metadata with a name, a namespace and labels. -/
def mkMeta (ns name : String) (labels : List (String × String)) : ObjectMeta :=
  { Name := name.toList, GenerateName := [], Namespace := ns.toList,
    Labels := labels.map (fun kv => (kv.1.toList, kv.2.toList)) }

/-- A template labelled `(prefix, config, instance)` in a namespace, with the given
containers. -/
def mkTemplate (ns name pfx config inst : String) (containers : List Container) : PodTemplate :=
  { ObjectMeta := mkMeta ns name
      [("k8srun.yashkov.org/prefix", pfx), ("k8srun.yashkov.org/config", config),
        ("k8srun.yashkov.org/instance", inst)],
    Template :=
      { ObjectMeta := mkMeta ns name [("app", name)],
        Spec := { Containers := containers, RestartPolicy := "Never".toList } } }

/-- A container with template arguments to be overwritten. -/
def mainContainer : Container :=
  { Name := "main".toList, Image := "busybox".toList, Command := ["sh".toList],
    Args := ["--from-template".toList] }

/-- The template of the deploy job. -/
def deployTemplate : PodTemplate :=
  mkTemplate "jobs" "deploy-tpl" "deploy" "prod" "team-a" [mainContainer]

/-- A second, differently labelled template in the same namespace. -/
def backupTemplate : PodTemplate :=
  mkTemplate "jobs" "backup-tpl" "backup" "prod" "team-a" [mainContainer]

/-- A template without containers. -/
def emptyTemplate : PodTemplate :=
  mkTemplate "jobs" "empty-tpl" "deploy" "prod" "team-a" []

/-- The job of the end-to-end scenario. -/
def deployJob : Job :=
  { Instance := "Team-A".toList, Name := "deploy-1".toList, Namespace := [],
    Config := "prod".toList, Args := ["--dry-run".toList] }

/-- A cluster over the given templates with default namespace `jobs`. -/
def mkCluster (templates : List PodTemplate) : Cluster :=
  { clentset := fakeClientset templates, defaultNamespace := "jobs".toList }

/-- Execution methods with fixed results. -/
def mkOps (copy : Option Error) (wait : Int × Option Error) (del : Option Error) : ExecutionOps :=
  { CopyLogs := fun _ _ => copy, WaitForCompletion := fun _ => wait, Delete := fun _ => del }

/-- The deploy job under the name ` My_Job `. -/
def myJob : Job := { deployJob with Name := " My_Job ".toList }

/-- The pod definition expected for `myJob` from `deployTemplate`. -/
def myJobPod : Pod :=
  { ObjectMeta :=
      { Name := [], GenerateName := "my-job-".toList, Namespace := [],
        Labels := [("app".toList, "deploy-tpl".toList)] },
    Spec :=
      { Containers := [{ mainContainer with Args := ["--dry-run".toList] }],
        RestartPolicy := "Never".toList } }

/-- The deploy job with a configuration that is not a valid label value. -/
def badJob : Job := { deployJob with Config := "a b".toList }

/-- The pod that the small platform creates for `deployJob` from `deployTemplate`. -/
def deployPod : Pod :=
  { ObjectMeta :=
      { Name := "deploy-1-x7k2q".toList, GenerateName := "deploy-1-".toList,
        Namespace := "jobs".toList, Labels := [("app".toList, "deploy-tpl".toList)] },
    Spec :=
      { Containers := [{ mainContainer with Args := ["--dry-run".toList] }],
        RestartPolicy := "Never".toList } }

/-- The execution that `Start` returns for `deployJob` on the small platform. -/
def deployExecution : Execution :=
  { job := deployJob, pods := "jobs".toList, pod := deployPod }

/-- The three requirements the source builds for `deployJob`. -/
def deployRequirements : List Requirement :=
  [⟨"k8srun.yashkov.org/prefix".toList, Operator.Equals, [namePrefix deployJob.Name]⟩,
    ⟨"k8srun.yashkov.org/config".toList, Operator.Equals, [deployJob.Config]⟩,
    ⟨"k8srun.yashkov.org/instance".toList, Operator.Equals,
      [strings.ToLower deployJob.Instance]⟩]

/-- The selector string of the conjunction of the three requirements of `deployJob`. -/
def deploySelector : GoString :=
  ("k8srun.yashkov.org/config=prod,k8srun.yashkov.org/instance=team-a," ++
    "k8srun.yashkov.org/prefix=deploy").toList

set_option maxRecDepth 100000

/-! ## Lower-casing, white space and the alphanumeric class -/

/-- A relation checked on the whole case table holds at every code point of every
range. -/
theorem caseTableAll_sound (Q : Nat → Nat → Bool) (h : caseTableAll Q = true)
    (r : CaseRange) (hr : r ∈ caseRanges) (n : Nat) (hc : r.contains n = true) :
    Q n (r.apply n) = true := by
  unfold caseTableAll at h
  rw [List.all_eq_true] at h
  have h1 := h r hr
  rw [List.all_eq_true] at h1
  apply h1
  simp only [CaseRange.contains, Bool.and_eq_true, decide_eq_true_eq] at hc
  rw [List.mem_range'_1]
  omega

/-- Above ASCII a code point is either left alone or mapped by a range of the table
that contains it. -/
theorem toLowerNat_high (n : Nat) (hn : 0x80 ≤ n) :
    (toLowerNat n = n ∧ ∀ r ∈ caseRanges, r.contains n = false) ∨
      ∃ r ∈ caseRanges, r.contains n = true ∧ toLowerNat n = r.apply n := by
  unfold toLowerNat
  rw [if_neg (by omega)]
  cases hf : caseRanges.find? (fun r => r.contains n) with
  | none =>
    left
    refine ⟨rfl, ?_⟩
    intro r hr
    have := List.find?_eq_none.mp hf r hr
    simpa using this
  | some r =>
    right
    exact ⟨r, List.mem_of_find?_eq_some hf, by simpa using List.find?_some hf, rfl⟩

/-- ASCII code points: only the capital letters move, by 32. -/
theorem toLowerNat_ascii (n : Nat) (hn : n < 0x80) :
    toLowerNat n = if 0x41 ≤ n ∧ n ≤ 0x5A then n + 0x20 else n := by
  unfold toLowerNat
  rw [if_pos hn]

/-- Table fact: every image is a valid code point. -/
theorem caseTable_valid :
    caseTableAll (fun _ m => decide (m < 0xD800 ∨ (0xDFFF < m ∧ m < 0x110000))) = true := by
  decide

/-- Table fact: no code point of the table is white space and no image is. -/
theorem caseTable_space :
    caseTableAll (fun n m => !isSpaceNat n && !isSpaceNat m) = true := by
  decide

/-- Table fact: the only images below U+0080 are those of U+0130 and U+212A. -/
theorem caseTable_ascii :
    caseTableAll (fun n m => decide (0x80 ≤ m) || decide (n = 0x130) || decide (n = 0x212A))
      = true := by
  decide

/-- On a valid code point `Char.ofNat` is the inverse of `Char.toNat`. -/
theorem toNat_ofNat_of_valid (m : Nat) (h : m < 0xD800 ∨ (0xDFFF < m ∧ m < 0x110000)) :
    (Char.ofNat m).toNat = m := by
  have hv : m.isValidChar := h
  unfold Char.ofNat
  rw [dif_pos hv]
  rfl

/-- A rune is a valid code point. -/
theorem toNat_valid (c : Char) :
    c.toNat < 0xD800 ∨ (0xDFFF < c.toNat ∧ c.toNat < 0x110000) := c.valid

/-- The code point of a lower-cased rune is the lower-cased code point. -/
theorem ToLower_toNat (c : Char) : (unicode.ToLower c).toNat = toLowerNat c.toNat := by
  unfold unicode.ToLower
  apply toNat_ofNat_of_valid
  have hc := toNat_valid c
  by_cases hn : c.toNat < 0x80
  · rw [toLowerNat_ascii _ hn]
    split <;> omega
  · rcases toLowerNat_high c.toNat (by omega) with ⟨h, _⟩ | ⟨r, hr, hcon, h⟩
    · rw [h]
      exact hc
    · rw [h]
      simpa using caseTableAll_sound _ caseTable_valid r hr _ hcon

/-- Lower-casing neither makes nor unmakes white space. -/
theorem IsSpace_ToLower (c : Char) : unicode.IsSpace (unicode.ToLower c) = unicode.IsSpace c := by
  unfold unicode.IsSpace
  rw [ToLower_toNat]
  by_cases hn : c.toNat < 0x80
  · rw [toLowerNat_ascii _ hn]
    split
    · rename_i h
      have h1 : isSpaceNat (c.toNat + 0x20) = false := by
        unfold isSpaceNat
        rw [if_pos (by omega)]
        simp only [decide_eq_false_iff_not]
        omega
      have h2 : isSpaceNat c.toNat = false := by
        unfold isSpaceNat
        rw [if_pos (by omega)]
        simp only [decide_eq_false_iff_not]
        omega
      rw [h1, h2]
    · rfl
  · rcases toLowerNat_high c.toNat (by omega) with ⟨h, _⟩ | ⟨r, hr, hcon, h⟩
    · rw [h]
    · rw [h]
      have := caseTableAll_sound _ caseTable_space r hr _ hcon
      simp only [Bool.and_eq_true, Bool.not_eq_true'] at this
      rw [this.1, this.2]

/-- Apart from U+0130 and U+212A, lower-casing keeps a rune inside, or outside, the
class `[[:alnum:]]`. -/
theorem isAlnum_ToLower (c : Char) (h1 : c.toNat ≠ 0x130) (h2 : c.toNat ≠ 0x212A) :
    isAlnum (unicode.ToLower c) = isAlnum c := by
  unfold isAlnum
  rw [ToLower_toNat]
  by_cases hn : c.toNat < 0x80
  · rw [toLowerNat_ascii _ hn]
    split
    · rename_i h
      have e1 : isAlnumNat (c.toNat + 0x20) = true := by
        unfold isAlnumNat
        simp only [decide_eq_true_eq]
        omega
      have e2 : isAlnumNat c.toNat = true := by
        unfold isAlnumNat
        simp only [decide_eq_true_eq]
        omega
      rw [e1, e2]
    · rfl
  · have hhigh : ∀ m, 0x80 ≤ m → isAlnumNat m = false := by
      intro m hm
      unfold isAlnumNat
      simp only [decide_eq_false_iff_not]
      omega
    rcases toLowerNat_high c.toNat (by omega) with ⟨h, _⟩ | ⟨r, hr, hcon, h⟩
    · rw [h]
    · rw [h]
      have := caseTableAll_sound _ caseTable_ascii r hr _ hcon
      simp only [Bool.or_eq_true, decide_eq_true_eq] at this
      rcases this with (h3 | h3) | h3
      · rw [hhigh _ h3, hhigh _ (by omega)]
      · exact absurd h3 h1
      · exact absurd h3 h2

/-- Trimming and lower-casing commute. -/
theorem TrimSpace_ToLower (s : GoString) :
    strings.TrimSpace (strings.ToLower s) = strings.ToLower (strings.TrimSpace s) := by
  have hf : (unicode.IsSpace ∘ unicode.ToLower) = unicode.IsSpace := by
    funext c
    exact IsSpace_ToLower c
  unfold strings.TrimSpace strings.ToLower
  rw [List.dropWhile_map, hf]
  unfold List.rdropWhile
  rw [← List.map_reverse, List.dropWhile_map, hf, List.map_reverse]

/-! ## Template lookup -/

/-- Shape of `getPodTemplate`: either a requirement pointer is nil and the call
panics before any query, or exactly one listing is made, in the effective namespace
and with the empty selector string, and its answer decides the result. -/
theorem getPodTemplate_shape (lib : OnInvalid) (cluster : Cluster) (job : Job) :
    getPodTemplate lib cluster job = ⟨[], .panic Panic.nilDereference⟩ ∨
    getPodTemplate lib cluster job =
      ⟨[Event.list (effectiveNamespace cluster job) []],
        resolveListing (cluster.clentset.List (effectiveNamespace cluster job) [])⟩ := by
  unfold getPodTemplate
  simp only [NewSelector, Selector.String, List.map_nil, effectiveNamespace]
  have hsel : ([','] : List Char).intercalate [] = [] := rfl
  rw [hsel]
  split
  · right
    cases cluster.clentset.List (if job.Namespace = [] then cluster.defaultNamespace
        else job.Namespace) [] with
    | error err => rfl
    | ok list =>
      match list with
      | [] => rfl
      | [item] => rfl
      | a :: b :: rest => simp [resolveListing]
  · left
    rfl

/-- Every listing that `getPodTemplate` makes is in the effective namespace and
carries the empty selector string. -/
theorem getPodTemplate_list_event (lib : OnInvalid) (cluster : Cluster) (job : Job)
    (ns sel : GoString) (h : Event.list ns sel ∈ (getPodTemplate lib cluster job).trace) :
    ns = effectiveNamespace cluster job ∧ sel = [] ∧
      getPodTemplate lib cluster job =
        ⟨[Event.list ns sel], resolveListing (cluster.clentset.List ns sel)⟩ := by
  rcases getPodTemplate_shape lib cluster job with hs | hs
  · rw [hs] at h
    simp at h
  · rw [hs] at h
    simp only [List.mem_singleton, Event.list.injEq] at h
    obtain ⟨h1, h2⟩ := h
    subst h1 h2
    exact ⟨rfl, rfl, hs⟩

/-- The trace of `Start` begins with the trace of `getPodTemplate` and goes on
with events that are not listings. -/
theorem Start_list_event (lib : OnInvalid) (cluster : Cluster) (job : Job)
    (ns sel : GoString) (h : Event.list ns sel ∈ (Start lib cluster job).trace) :
    Event.list ns sel ∈ (getPodTemplate lib cluster job).trace := by
  unfold Start at h
  simp only [] at h
  split at h
  · exact h
  · exact h
  · split at h
    · exact h
    · split at h <;> simpa using h

/-- Claim C3. When the listing made by `Start` answers with exactly one template and
that template has a container, `Start` submits exactly one pod for creation, in
the namespace of the template, and the arguments of its first container are
`job.Args`. -/
theorem Start_submits_job_args (lib : OnInvalid) (cluster : Cluster) (job : Job)
    (ns sel : GoString) (t : PodTemplate)
    (hev : Event.list ns sel ∈ (Start lib cluster job).trace)
    (hresp : cluster.clentset.List ns sel = .ok [t])
    (hc : t.Template.Spec.Containers ≠ []) :
    ∃ pod : Pod,
      Event.create t.Namespace pod ∈ (Start lib cluster job).trace ∧
      pod.Spec.Containers.head?.map Container.Args = some job.Args ∧
      ∀ ns' pod', Event.create ns' pod' ∈ (Start lib cluster job).trace →
        ns' = t.Namespace ∧ pod' = pod := by
  obtain ⟨_, _, hg⟩ := getPodTemplate_list_event lib cluster job ns sel
    (Start_list_event lib cluster job ns sel hev)
  rw [hresp] at hg
  unfold Start
  rw [hg]
  simp only [resolveListing]
  match hcs : t.Template.Spec.Containers with
  | [] => exact absurd hcs hc
  | c :: cs =>
    simp only []
    split <;> simp

/-- The listings in the trace of `Run` are those of `Start`. -/
theorem Run_list_event (lib : OnInvalid) (ops : ExecutionOps) (cluster : Cluster) (job : Job)
    (out : Writer) (ns sel : GoString)
    (h : Event.list ns sel ∈ (Run lib ops cluster job out).trace) :
    Event.list ns sel ∈ (Start lib cluster job).trace := by
  unfold Run at h
  simp only [] at h
  split at h
  · exact h
  · exact h
  · split at h <;> simpa using h

/-- When `getPodTemplate` fails with an error, `Start` returns that error and adds
no event. -/
theorem Start_of_lookup_error (lib : OnInvalid) (cluster : Cluster) (job : Job)
    (tr : List Event) (err : Error)
    (h : getPodTemplate lib cluster job = ⟨tr, .ret (.error err)⟩) :
    Start lib cluster job = ⟨tr, .ret (.error err)⟩ := by
  unfold Start
  rw [h]

/-- When `Start` fails with an error, `Run` returns 128 with that error and adds no
event. -/
theorem Run_of_start_error (lib : OnInvalid) (ops : ExecutionOps) (cluster : Cluster)
    (job : Job) (out : Writer) (tr : List Event) (err : Error)
    (h : Start lib cluster job = ⟨tr, .ret (.error err)⟩) :
    Run lib ops cluster job out = ⟨tr, .ret (128, some err)⟩ := by
  unfold Run
  rw [h]

/-- Claim C2. When the listing made by `Run` answers with no item, or with two or
more, `Run` returns 128 with the not-found, respectively the ambiguous, error; no
creation is submitted and `getPodTemplate` hands out no template. -/
theorem Run_zero_or_many_templates (lib : OnInvalid) (ops : ExecutionOps) (cluster : Cluster)
    (job : Job) (out : Writer) (ns sel : GoString) (items : List PodTemplate)
    (hev : Event.list ns sel ∈ (Run lib ops cluster job out).trace)
    (hresp : cluster.clentset.List ns sel = .ok items)
    (hlen : items.length = 0 ∨ 2 ≤ items.length) :
    (Run lib ops cluster job out).out =
        .ret (128, some (if items.length = 0 then errNotFound else errAmbiguous)) ∧
      (∀ ns' pod, Event.create ns' pod ∉ (Run lib ops cluster job out).trace) ∧
      (∀ t, (getPodTemplate lib cluster job).out ≠ .ret (.ok t)) := by
  obtain ⟨_, _, hg⟩ := getPodTemplate_list_event lib cluster job ns sel
    (Start_list_event lib cluster job ns sel (Run_list_event lib ops cluster job out ns sel hev))
  rw [hresp] at hg
  have hres : resolveListing (.ok items) =
      .ret (.error (if items.length = 0 then errNotFound else errAmbiguous)) := by
    match items, hlen with
    | [], _ => rfl
    | [a], h => simp at h
    | a :: b :: rest, _ => simp [resolveListing]
  rw [hres] at hg
  have hr := Run_of_start_error lib ops cluster job out _ _
    (Start_of_lookup_error lib cluster job _ _ hg)
  rw [hr, hg]
  simp

/-! ## `normalize` and `prefix` -/

/-- A trimmed string neither starts nor ends with white space. -/
theorem TrimSpace_ends (t : GoString) :
    (∀ c, (strings.TrimSpace t).head? = some c → unicode.IsSpace c = false) ∧
      (∀ c, (strings.TrimSpace t).getLast? = some c → unicode.IsSpace c = false) := by
  unfold strings.TrimSpace
  constructor
  · intro c hc
    obtain ⟨r, hr⟩ := List.rdropWhile_prefix unicode.IsSpace (t.dropWhile unicode.IsSpace)
    have hn := List.head?_dropWhile_not unicode.IsSpace t
    cases hl : (t.dropWhile unicode.IsSpace).rdropWhile unicode.IsSpace with
    | nil => rw [hl] at hc; simp at hc
    | cons a rest =>
      rw [hl] at hc hr
      simp only [List.head?_cons, Option.some.injEq] at hc
      rw [← hr] at hn
      simp only [List.cons_append, List.head?_cons] at hn
      rw [← hc]
      exact hn
  · intro c hc
    have hne : (t.dropWhile unicode.IsSpace).rdropWhile unicode.IsSpace ≠ [] := by
      intro h
      rw [h] at hc
      simp at hc
    have hl := List.rdropWhile_last_not unicode.IsSpace (t.dropWhile unicode.IsSpace) hne
    rw [List.getLast?_eq_getLast _ hne] at hc
    simp only [Option.some.injEq] at hc
    rw [← hc]
    simpa using hl

/-- Every pod that `Start` submits has the generate-name `normalize(job.Name)-` and
an empty name. -/
theorem Start_create_meta (lib : OnInvalid) (cluster : Cluster) (job : Job)
    (ns : GoString) (pod : Pod) (h : Event.create ns pod ∈ (Start lib cluster job).trace) :
    pod.ObjectMeta.GenerateName = normalize job.Name ++ ['-'] ∧ pod.ObjectMeta.Name = [] := by
  unfold Start at h
  rcases getPodTemplate_shape lib cluster job with hs | hs <;> rw [hs] at h <;>
    simp only [] at h
  · simp at h
  · split at h
    · simp at h
    · simp at h
    · split at h
      · simp at h
      · split at h
        · simp only [List.singleton_append, List.mem_cons, Event.create.injEq,
            List.mem_singleton, List.not_mem_nil, or_false, false_or, reduceCtorEq] at h
          obtain ⟨_, hp⟩ := h
          subst hp
          exact ⟨rfl, rfl⟩
        · simp only [List.singleton_append, List.mem_cons, Event.create.injEq,
            List.mem_singleton, List.not_mem_nil, or_false, false_or, reduceCtorEq] at h
          obtain ⟨_, hp⟩ := h
          subst hp
          exact ⟨rfl, rfl⟩

/-- Claim C4. The pod that `Start` submits carries the generate-name
`normalize(job.Name)` followed by `-` and an empty name; `normalize` is trimming,
lower-casing and replacing every `_` by `-`, so its result has no `_` and neither
starts nor ends with white space; the name ` My_Job ` gives `my-job-`. -/
theorem Start_generate_name (lib : OnInvalid) (cluster : Cluster) (job : Job)
    (ns : GoString) (pod : Pod) (h : Event.create ns pod ∈ (Start lib cluster job).trace) :
    pod.ObjectMeta.GenerateName = normalize job.Name ++ ['-'] ∧
      pod.ObjectMeta.Name = [] ∧
      normalize job.Name =
        strings.ReplaceAll (strings.ToLower (strings.TrimSpace job.Name)) '_' '-' ∧
      '_' ∉ normalize job.Name ∧
      (∀ c, (normalize job.Name).head? = some c → unicode.IsSpace c = false) ∧
      (∀ c, (normalize job.Name).getLast? = some c → unicode.IsSpace c = false) ∧
      normalize " My_Job ".toList ++ ['-'] = "my-job-".toList := by
  have hm := Start_create_meta lib cluster job ns pod h
  have hrep : ∀ a : Char, unicode.IsSpace a = false →
      unicode.IsSpace (if a = '_' then '-' else a) = false := by
    intro a ha
    split
    · decide
    · exact ha
  have hends := TrimSpace_ends (strings.ToLower job.Name)
  refine ⟨hm.1, hm.2, ?_, ?_, ?_, ?_, by decide⟩
  · unfold normalize
    rw [TrimSpace_ToLower]
  · unfold normalize strings.ReplaceAll
    intro hmem
    rw [List.mem_map] at hmem
    obtain ⟨a, _, ha⟩ := hmem
    split at ha
    · exact absurd ha (by decide)
    · rename_i hne
      exact hne ha
  · intro c hc
    unfold normalize strings.ReplaceAll at hc
    rw [List.head?_map] at hc
    cases hh : (strings.TrimSpace (strings.ToLower job.Name)).head? with
    | none => rw [hh] at hc; simp at hc
    | some a =>
      rw [hh] at hc
      simp only [Option.map_some', Option.some.injEq] at hc
      rw [← hc]
      exact hrep a (hends.1 a hh)
  · intro c hc
    unfold normalize strings.ReplaceAll at hc
    rw [List.getLast?_map] at hc
    cases hh : (strings.TrimSpace (strings.ToLower job.Name)).getLast? with
    | none => rw [hh] at hc; simp at hc
    | some a =>
      rw [hh] at hc
      simp only [Option.map_some', Option.some.injEq] at hc
      rw [← hc]
      exact hrep a (hends.2 a hh)

/-- Witness of C4: the job named ` My_Job ` on a platform with one template. -/
theorem Start_generate_name_witness :
    Event.create "jobs".toList myJobPod ∈
        (Start OnInvalid.nilPointer (mkCluster [deployTemplate]) myJob).trace ∧
      myJobPod.ObjectMeta.GenerateName = normalize myJob.Name ++ ['-'] ∧
      myJobPod.ObjectMeta.GenerateName = "my-job-".toList ∧
      myJobPod.ObjectMeta.Name = [] :=
  ⟨by decide,
    (Start_generate_name OnInvalid.nilPointer (mkCluster [deployTemplate]) myJob
      "jobs".toList myJobPod (by decide)).1,
    rfl,
    (Start_generate_name OnInvalid.nilPointer (mkCluster [deployTemplate]) myJob
      "jobs".toList myJobPod (by decide)).2.1⟩

/-- Counterexample to C5 as stated: for the one-rune name U+212A (KELVIN SIGN) the
source gives the empty prefix, while the alphanumeric run of the lower-cased name
is `k`. -/
theorem namePrefix_kelvin :
    namePrefix [Char.ofNat 0x212A] = [] ∧
      findAlnumRun (strings.ToLower [Char.ofNat 0x212A]) = ['k'] ∧
      findAlnumRun (strings.ToLower [Char.ofNat 0x212A]) ≠ namePrefix [Char.ofNat 0x212A] := by
  decide

/-- A rune of `[[:alnum:]]` stays in the class when lower-cased. -/
theorem isAlnum_ToLower_of_alnum (a : Char) (ha : isAlnum a = true) :
    isAlnum (unicode.ToLower a) = true := by
  have hlt : a.toNat < 0x80 := by
    unfold isAlnum isAlnumNat at ha
    simp only [decide_eq_true_eq] at ha
    omega
  rw [isAlnum_ToLower a (by omega) (by omega)]
  exact ha

/-- A rune outside `[[:alnum:]]` is lower-cased into the class exactly when it is
U+0130 or U+212A. -/
theorem isAlnum_ToLower_of_not_alnum (a : Char) (ha : isAlnum a = false) :
    isAlnum (unicode.ToLower a) = false ↔ a.toNat ≠ 0x130 ∧ a.toNat ≠ 0x212A := by
  constructor
  · intro h
    constructor
    · intro h1
      have ha1 : a = Char.ofNat 0x130 := by rw [← h1, Char.ofNat_toNat]
      rw [ha1] at h
      exact absurd h (by decide)
    · intro h2
      have ha2 : a = Char.ofNat 0x212A := by rw [← h2, Char.ofNat_toNat]
      rw [ha2] at h
      exact absurd h (by decide)
  · intro h
    rw [isAlnum_ToLower a h.1 h.2]
    exact ha

/-- Claim C5, amended. For every name, `prefix` is the lower-casing of the leading
`[[:alnum:]]` run of the name. The leading alphanumeric run of the lower-cased name
is the same string exactly when the rune that follows the leading run, if there is
one, is neither U+0130 nor U+212A. The result is empty exactly when the name is
empty or starts with a rune outside `[[:alnum:]]`, and `Build123-x` gives
`build123`. -/
theorem namePrefix_alnum_run (s : GoString) :
    namePrefix s = strings.ToLower (findAlnumRun s) ∧
      (findAlnumRun (strings.ToLower s) = namePrefix s ↔
        ∀ c, (s.dropWhile isAlnum).head? = some c → c.toNat ≠ 0x130 ∧ c.toNat ≠ 0x212A) ∧
      (namePrefix s = [] ↔ s = [] ∨ ∃ c rest, s = c :: rest ∧ isAlnum c = false) ∧
      namePrefix "Build123-x".toList = "build123".toList := by
  refine ⟨rfl, ?_, ?_, by decide⟩
  · unfold namePrefix findAlnumRun strings.ToLower
    induction s with
    | nil => simp
    | cons a rest ih =>
      by_cases ha : isAlnum a = true
      · have hl := isAlnum_ToLower_of_alnum a ha
        simp only [List.map_cons, List.takeWhile_cons, List.dropWhile_cons, ha, hl, if_true,
          List.cons.injEq, true_and]
        exact ih
      · have ha0 : isAlnum a = false := by simpa using ha
        have hiff := isAlnum_ToLower_of_not_alnum a ha0
        simp only [List.map_cons, List.takeWhile_cons, List.dropWhile_cons, ha0,
          List.map_nil, List.head?_cons, Option.some.injEq, forall_eq',
          Bool.false_eq_true, if_false]
        rw [← hiff]
        cases hL : isAlnum (unicode.ToLower a) <;> simp
  · unfold namePrefix findAlnumRun strings.ToLower
    cases s with
    | nil => simp
    | cons a rest =>
      by_cases ha : isAlnum a = true
      · simp [List.takeWhile_cons, ha]
      · simp [List.takeWhile_cons, ha]

/-- Witness of C5 amended: in `ab-` followed by U+212A the rune after the leading
run is `-`, so both orders of lower-casing and taking the run give `ab`. -/
theorem namePrefix_alnum_run_witness :
    (∀ c, (['a', 'b', '-', Char.ofNat 0x212A].dropWhile isAlnum).head? = some c →
        c.toNat ≠ 0x130 ∧ c.toNat ≠ 0x212A) ∧
      findAlnumRun (strings.ToLower ['a', 'b', '-', Char.ofNat 0x212A]) =
        namePrefix ['a', 'b', '-', Char.ofNat 0x212A] ∧
      namePrefix ['a', 'b', '-', Char.ofNat 0x212A] = ['a', 'b'] :=
  have hc : ∀ c, (['a', 'b', '-', Char.ofNat 0x212A].dropWhile isAlnum).head? = some c →
      c.toNat ≠ 0x130 ∧ c.toNat ≠ 0x212A := by
    intro c h
    have hd : (['a', 'b', '-', Char.ofNat 0x212A].dropWhile isAlnum).head? = some '-' := by
      decide
    rw [hd] at h
    cases h
    decide
  ⟨hc, (namePrefix_alnum_run ['a', 'b', '-', Char.ofNat 0x212A]).2.1.mpr hc, by decide⟩

/-! ## The run: streaming, waiting and the deferred deletion -/

/-- The trace of `Start` holds launch events only. -/
theorem Start_launch_events (lib : OnInvalid) (cluster : Cluster) (job : Job) :
    ∀ x ∈ (Start lib cluster job).trace, isLaunchEvent x = true := by
  unfold Start
  rcases getPodTemplate_shape lib cluster job with hs | hs <;> rw [hs] <;> simp only []
  · simp
  · split
    · simp [isLaunchEvent]
    · simp [isLaunchEvent]
    · split
      · simp [isLaunchEvent]
      · split <;> simp [isLaunchEvent]

/-- A trace of launch events holds no `Delete`, `WaitForCompletion` or `CopyLogs`. -/
theorem launch_events_counts (tr : List Event) (h : ∀ x ∈ tr, isLaunchEvent x = true) :
    deleteCount tr = 0 ∧ waitCount tr = 0 ∧ copyLogsCount tr = 0 := by
  induction tr with
  | nil => simp [deleteCount, waitCount, copyLogsCount]
  | cons a rest ih =>
    have ha := h a (List.mem_cons_self a rest)
    have hr := ih (fun x hx => h x (List.mem_cons_of_mem a hx))
    simp only [deleteCount, waitCount, copyLogsCount] at hr ⊢
    cases a <;> simp_all [isLaunchEvent, List.countP_cons]

/-- After a successful `Start`, `Run` appends `CopyLogs`, then `WaitForCompletion`
when the copy succeeded, then the deferred `Delete`. -/
theorem Run_of_start_ok (lib : OnInvalid) (ops : ExecutionOps) (cluster : Cluster)
    (job : Job) (out : Writer) (execution : Execution)
    (hs : (Start lib cluster job).out = .ret (.ok execution)) :
    Run lib ops cluster job out =
      match ops.CopyLogs execution out with
      | some err =>
        ⟨(Start lib cluster job).trace ++
          [Event.copyLogs execution out, Event.delete execution], .ret (128, some err)⟩
      | none =>
        ⟨(Start lib cluster job).trace ++
          [Event.copyLogs execution out, Event.waitForCompletion execution,
            Event.delete execution], .ret (ops.WaitForCompletion execution)⟩ := by
  unfold Run
  simp only [hs]
  cases ops.CopyLogs execution out <;> simp

/-- Claim C6. When the launch succeeds and `CopyLogs` fails with `e`, `Run` returns
`(128, e)`, never calls `WaitForCompletion`, and still requests the deletion of the
created pod, as its last action. -/
theorem Run_copyLogs_failure (lib : OnInvalid) (ops : ExecutionOps) (cluster : Cluster)
    (job : Job) (out : Writer) (execution : Execution) (e : Error)
    (hs : (Start lib cluster job).out = .ret (.ok execution))
    (hc : ops.CopyLogs execution out = some e) :
    (Run lib ops cluster job out).out = .ret (128, some e) ∧
      (∀ x, Event.waitForCompletion x ∉ (Run lib ops cluster job out).trace) ∧
      (Run lib ops cluster job out).trace =
        (Start lib cluster job).trace ++
          [Event.copyLogs execution out, Event.delete execution] := by
  have hr := Run_of_start_ok lib ops cluster job out execution hs
  rw [hc] at hr
  simp only [] at hr
  rw [hr]
  refine ⟨rfl, ?_, rfl⟩
  intro x hx
  simp only [List.mem_append, List.mem_cons, List.mem_singleton, List.not_mem_nil,
    or_false] at hx
  rcases hx with hx | hx | hx
  · have := Start_launch_events lib cluster job _ hx
    simp [isLaunchEvent] at this
  · cases hx
  · cases hx

/-- Claim C7. When the launch and `CopyLogs` succeed, `Run` returns the pair of
`WaitForCompletion`, whatever the deferred `Delete` answers. -/
theorem Run_returns_wait_result (lib : OnInvalid) (ops : ExecutionOps) (cluster : Cluster)
    (job : Job) (out : Writer) (execution : Execution)
    (hs : (Start lib cluster job).out = .ret (.ok execution))
    (hc : ops.CopyLogs execution out = none) :
    ∀ del : Execution → Option Error,
      (Run lib { ops with Delete := del } cluster job out).out =
        .ret (ops.WaitForCompletion execution) ∧
      (Run lib { ops with Delete := del } cluster job out).trace =
        (Start lib cluster job).trace ++
          [Event.copyLogs execution out, Event.waitForCompletion execution,
            Event.delete execution] := by
  intro del
  have hr := Run_of_start_ok lib { ops with Delete := del } cluster job out execution hs
  simp only [hc] at hr
  rw [hr]
  exact ⟨rfl, rfl⟩

/-- Claim C8, amended. `Delete` is requested exactly once by every `Run` whose launch
succeeded, whatever `CopyLogs` and `WaitForCompletion` answer, and not at all by a
`Run` whose launch returned an error. -/
theorem Run_delete_count (lib : OnInvalid) (ops : ExecutionOps) (cluster : Cluster)
    (job : Job) (out : Writer) :
    match (Start lib cluster job).out with
    | .ret (.ok _) => deleteCount (Run lib ops cluster job out).trace = 1
    | .ret (.error _) => deleteCount (Run lib ops cluster job out).trace = 0
    | .panic _ => True := by
  have hl := launch_events_counts _ (Start_launch_events lib cluster job)
  match hs : (Start lib cluster job).out with
  | .ret (.ok execution) =>
    simp only []
    rw [Run_of_start_ok lib ops cluster job out execution hs]
    cases ops.CopyLogs execution out <;>
      simp_all [deleteCount, List.countP_append, List.countP_cons]
  | .ret (.error err) =>
    simp only []
    have : Run lib ops cluster job out = ⟨(Start lib cluster job).trace, .ret (128, some err)⟩ := by
      unfold Run
      simp only [hs]
    rw [this]
    exact hl.1
  | .panic _ => trivial

/-- Claim C9, amended. Whenever `Run` requests a deletion, the trace is the launch
events followed by `CopyLogs`, then `WaitForCompletion` exactly when the copy
succeeded, then the deletion: the deletion is last, after every attempt made. -/
theorem Run_delete_is_last (lib : OnInvalid) (ops : ExecutionOps) (cluster : Cluster)
    (job : Job) (out : Writer) (e : Execution)
    (hd : Event.delete e ∈ (Run lib ops cluster job out).trace) :
    ∃ pre : List Event, (∀ x ∈ pre, isLaunchEvent x = true) ∧
      ((ops.CopyLogs e out ≠ none ∧
          (Run lib ops cluster job out).trace =
            pre ++ [Event.copyLogs e out, Event.delete e]) ∨
        (ops.CopyLogs e out = none ∧
          (Run lib ops cluster job out).trace =
            pre ++ [Event.copyLogs e out, Event.waitForCompletion e, Event.delete e])) := by
  have hl := Start_launch_events lib cluster job
  have hno : Event.delete e ∉ (Start lib cluster job).trace := by
    intro hx
    have := hl _ hx
    simp [isLaunchEvent] at this
  match hs : (Start lib cluster job).out with
  | .panic p =>
    have : Run lib ops cluster job out = ⟨(Start lib cluster job).trace, .panic p⟩ := by
      unfold Run
      simp only [hs]
    rw [this] at hd
    exact absurd hd hno
  | .ret (.error err) =>
    have : Run lib ops cluster job out = ⟨(Start lib cluster job).trace, .ret (128, some err)⟩ := by
      unfold Run
      simp only [hs]
    rw [this] at hd
    exact absurd hd hno
  | .ret (.ok execution) =>
    have hr := Run_of_start_ok lib ops cluster job out execution hs
    refine ⟨(Start lib cluster job).trace, hl, ?_⟩
    cases hc : ops.CopyLogs execution out with
    | some err =>
      rw [hc] at hr
      simp only [] at hr
      rw [hr] at hd ⊢
      have he : e = execution := by
        simp only [List.mem_append, List.mem_cons, List.mem_singleton, List.not_mem_nil,
          or_false] at hd
        rcases hd with hx | hx | hx
        · exact absurd hx hno
        · cases hx
        · cases hx
          rfl
      subst he
      left
      exact ⟨by simp [hc], rfl⟩
    | none =>
      rw [hc] at hr
      simp only [] at hr
      rw [hr] at hd ⊢
      have he : e = execution := by
        simp only [List.mem_append, List.mem_cons, List.mem_singleton, List.not_mem_nil,
          or_false] at hd
        rcases hd with hx | hx | hx | hx
        · exact absurd hx hno
        · cases hx
        · cases hx
        · cases hx
          rfl
      subst he
      right
      exact ⟨hc, rfl⟩

/-! ## Evaluations at concrete inputs -/

/-- Claim C1, the code at a failing input. For `deployJob` on a platform with two
templates of which one carries the three labels, the listing is made in the
default namespace but with the EMPTY selector string, because the value of
`selector.Add` is dropped; the conjunction of the three requirements prints
differently and would select the one template, while the query actually sent
answers with both and the lookup fails as ambiguous. -/
theorem getPodTemplate_sends_empty_selector :
    (getPodTemplate OnInvalid.nilPointer (mkCluster [deployTemplate, backupTemplate])
        deployJob).trace = [Event.list "jobs".toList []] ∧
      (NewSelector.Add deployRequirements).String = deploySelector ∧
      deploySelector ≠ [] ∧
      (fakeClientset [deployTemplate, backupTemplate]).List "jobs".toList deploySelector =
        .ok [deployTemplate] ∧
      (getPodTemplate OnInvalid.nilPointer (mkCluster [deployTemplate, backupTemplate])
        deployJob).out = .ret (.error errAmbiguous) := by
  decide

/-- Claim C10, the code at failing inputs. A template without containers makes
`Start` panic on `Containers[0]`, under either behaviour of the labels library; a
configuration that is not a label value makes it panic on a nil requirement where
the library returns nil, and is silently accepted where it does not. In no case is
an error returned. -/
theorem Start_panics :
    Start OnInvalid.nilPointer (mkCluster [emptyTemplate]) deployJob =
        ⟨[Event.list "jobs".toList []], .panic Panic.indexOutOfRange⟩ ∧
      Start OnInvalid.requirement (mkCluster [emptyTemplate]) deployJob =
        ⟨[Event.list "jobs".toList []], .panic Panic.indexOutOfRange⟩ ∧
      IsValidLabelValue badJob.Config = false ∧
      Start OnInvalid.nilPointer (mkCluster [deployTemplate]) badJob =
        ⟨[], .panic Panic.nilDereference⟩ ∧
      (Start OnInvalid.requirement (mkCluster [deployTemplate]) badJob).out =
        .ret (.ok { deployExecution with job := badJob }) := by
  decide

/-- Counterexample to C8 as stated: with no template the launch fails, `Run`
returns 128 with the not-found error, and `Delete` is requested zero times. -/
theorem Run_launch_failure_no_delete :
    (Run OnInvalid.nilPointer (mkOps none (0, none) none) (mkCluster []) deployJob ⟨1⟩).out =
        .ret (128, some errNotFound) ∧
      deleteCount
        (Run OnInvalid.nilPointer (mkOps none (0, none) none) (mkCluster []) deployJob ⟨1⟩).trace
        ≠ 1 := by
  decide

/-- Counterexample to C9 as stated: when `CopyLogs` fails the deletion is requested
although `WaitForCompletion` was never attempted. -/
theorem Run_copy_failure_no_wait :
    Event.delete deployExecution ∈
        (Run OnInvalid.nilPointer (mkOps (some "stream closed") (0, none) none)
          (mkCluster [deployTemplate]) deployJob ⟨1⟩).trace ∧
      waitCount
        (Run OnInvalid.nilPointer (mkOps (some "stream closed") (0, none) none)
          (mkCluster [deployTemplate]) deployJob ⟨1⟩).trace = 0 ∧
      ∀ x ∈ (Run OnInvalid.nilPointer (mkOps (some "stream closed") (0, none) none)
          (mkCluster [deployTemplate]) deployJob ⟨1⟩).trace, x ≠ Event.waitForCompletion
            deployExecution := by
  decide

/-! ## Witnesses -/

/-- Witness of C2: two templates in the namespace. -/
theorem Run_zero_or_many_templates_witness :
    Event.list "jobs".toList [] ∈
        (Run OnInvalid.nilPointer (mkOps none (0, none) none)
          (mkCluster [deployTemplate, backupTemplate]) deployJob ⟨1⟩).trace ∧
      (mkCluster [deployTemplate, backupTemplate]).clentset.List "jobs".toList [] =
        .ok [deployTemplate, backupTemplate] ∧
      (Run OnInvalid.nilPointer (mkOps none (0, none) none)
          (mkCluster [deployTemplate, backupTemplate]) deployJob ⟨1⟩).out =
        .ret (128, some errAmbiguous) :=
  ⟨by decide, by decide,
    (Run_zero_or_many_templates OnInvalid.nilPointer (mkOps none (0, none) none)
      (mkCluster [deployTemplate, backupTemplate]) deployJob ⟨1⟩ "jobs".toList []
      [deployTemplate, backupTemplate] (by decide) (by decide) (Or.inr (by decide))).1⟩

/-- Witness of C3: `deployJob` on a platform with its one template. -/
theorem Start_submits_job_args_witness :
    Event.list "jobs".toList [] ∈
        (Start OnInvalid.nilPointer (mkCluster [deployTemplate]) deployJob).trace ∧
      (mkCluster [deployTemplate]).clentset.List "jobs".toList [] = .ok [deployTemplate] ∧
      deployTemplate.Template.Spec.Containers ≠ [] ∧
      ∃ pod : Pod,
        Event.create deployTemplate.Namespace pod ∈
          (Start OnInvalid.nilPointer (mkCluster [deployTemplate]) deployJob).trace ∧
        pod.Spec.Containers.head?.map Container.Args = some deployJob.Args ∧
        ∀ ns' pod', Event.create ns' pod' ∈
            (Start OnInvalid.nilPointer (mkCluster [deployTemplate]) deployJob).trace →
          ns' = deployTemplate.Namespace ∧ pod' = pod :=
  ⟨by decide, by decide, by decide,
    Start_submits_job_args OnInvalid.nilPointer (mkCluster [deployTemplate]) deployJob
      "jobs".toList [] deployTemplate (by decide) (by decide) (by decide)⟩

/-- Witness of C6: the copy of the logs fails after a successful launch. -/
theorem Run_copyLogs_failure_witness :
    (Start OnInvalid.nilPointer (mkCluster [deployTemplate]) deployJob).out =
        .ret (.ok deployExecution) ∧
      (mkOps (some "stream closed") (0, none) none).CopyLogs deployExecution ⟨1⟩ =
        some "stream closed" ∧
      (Run OnInvalid.nilPointer (mkOps (some "stream closed") (0, none) none)
        (mkCluster [deployTemplate]) deployJob ⟨1⟩).out = .ret (128, some "stream closed") :=
  ⟨by decide, rfl,
    (Run_copyLogs_failure OnInvalid.nilPointer (mkOps (some "stream closed") (0, none) none)
      (mkCluster [deployTemplate]) deployJob ⟨1⟩ deployExecution "stream closed"
      (by decide) rfl).1⟩

/-- Witness of C7: the pod exits with code 3 and the deletion fails. -/
theorem Run_returns_wait_result_witness :
    (Start OnInvalid.nilPointer (mkCluster [deployTemplate]) deployJob).out =
        .ret (.ok deployExecution) ∧
      (mkOps none (3, none) none).CopyLogs deployExecution ⟨1⟩ = none ∧
      (Run OnInvalid.nilPointer
        { mkOps none (3, none) none with Delete := fun _ => some "delete refused" }
        (mkCluster [deployTemplate]) deployJob ⟨1⟩).out = .ret (3, none) :=
  ⟨by decide, rfl,
    (Run_returns_wait_result OnInvalid.nilPointer (mkOps none (3, none) none)
      (mkCluster [deployTemplate]) deployJob ⟨1⟩ deployExecution (by decide) rfl
      (fun _ => some "delete refused")).1⟩

/-- Witness of C9 amended: a run in which everything succeeds. -/
theorem Run_delete_is_last_witness :
    Event.delete deployExecution ∈
        (Run OnInvalid.nilPointer (mkOps none (0, none) none) (mkCluster [deployTemplate])
          deployJob ⟨1⟩).trace ∧
      ∃ pre : List Event, (∀ x ∈ pre, isLaunchEvent x = true) ∧
        (((mkOps none (0, none) none).CopyLogs deployExecution ⟨1⟩ ≠ none ∧
            (Run OnInvalid.nilPointer (mkOps none (0, none) none) (mkCluster [deployTemplate])
              deployJob ⟨1⟩).trace =
              pre ++ [Event.copyLogs deployExecution ⟨1⟩, Event.delete deployExecution]) ∨
          ((mkOps none (0, none) none).CopyLogs deployExecution ⟨1⟩ = none ∧
            (Run OnInvalid.nilPointer (mkOps none (0, none) none) (mkCluster [deployTemplate])
              deployJob ⟨1⟩).trace =
              pre ++ [Event.copyLogs deployExecution ⟨1⟩,
                Event.waitForCompletion deployExecution, Event.delete deployExecution])) :=
  ⟨by decide,
    Run_delete_is_last OnInvalid.nilPointer (mkOps none (0, none) none)
      (mkCluster [deployTemplate]) deployJob ⟨1⟩ deployExecution (by decide)⟩

end K8sRun
